import Mathlib

/-!
Shallow embedding of the background-job orchestration subsystem of
`src/backend/lightweight_server.py` (the `training_gui` repository).

Modelling conventions:
* Python strings are Lean `String`s; Python `None`-able values are `Option`s.
* OS interaction (file existence, the interpreter version probe, archive
  download, tar extraction, `process.poll()`, reading the sidecar status file,
  reading the log file, `os.kill`) is passed in as explicit oracle inputs, so
  every handler is a pure function from its inputs and the current registry to
  the next registry and the HTTP response.
* The job registry `self.running_jobs` (a Python dict) is an association list
  keyed by job id; dict assignment is `Registry.insert`.
* Event-loop timestamps (`asyncio.get_event_loop().time()`) are `Nat` ticks.
* JSON values stored in the sidecar status file are kept opaque as `String`s;
  no claim computes with them.
-/

namespace TrainingGui

/-! ### String helpers (Python `in`, `strip`, slicing) -/

/-- List-level check that `pat` is a prefix of the first argument. -/
def startsWithL : List Char → List Char → Bool
  | _, [] => true
  | [], _ :: _ => false
  | a :: as, b :: bs => a = b && startsWithL as bs

/-- List-level substring containment: Python `pat in s` on characters. -/
def containsL (pat : List Char) : List Char → Bool
  | [] => pat.isEmpty
  | c :: cs => startsWithL (c :: cs) pat || containsL pat cs

/-- Python `pat in s` for strings. -/
def strContainsSub (s pat : String) : Bool :=
  containsL pat.data s.data

/-- Python `str.strip()` (whitespace from both ends). -/
def pyStrip (s : String) : String :=
  String.mk (((s.data.dropWhile Char.isWhitespace).reverse.dropWhile
    Char.isWhitespace).reverse)

/-- Python `s[:n]` (character slicing). -/
def strTake (s : String) (n : Nat) : String :=
  String.mk (s.data.take n)

/-- Python `s.lower()`. -/
def pyLower (s : String) : String :=
  String.mk (s.data.map Char.toLower)

/-- Python truthiness composed with `or`: `s or d` for an optional string. -/
def pyOr (s : Option String) (d : String) : String :=
  match s with
  | some v => if v = "" then d else v
  | none => d

/-! ### `get_last_error_from_log` (lightweight_server.py lines 118-176) -/

/-- The literal `error_keywords` list of `get_last_error_from_log`. -/
def error_keywords : List String :=
  ["ERROR", "Error", "error", "FAILED", "Failed", "failed",
   "Exception", "Traceback", "RuntimeError", "ValueError", "ImportError"]

/-- Python `lines[-max_lines:] if len(lines) > max_lines else lines`
with `max_lines = 10`. -/
def lastTenLines (lines : List String) : List String :=
  if lines.length > 10 then lines.drop (lines.length - 10) else lines

/-- One (already stripped) line matches some keyword of `error_keywords`. -/
def isErrorLine (l : String) : Bool :=
  error_keywords.any (fun k => strContainsSub l k)

/-- The truncation step: `line[:147] + "..."` when `len(line) > 150`. -/
def truncate150 (s : String) : String :=
  if 150 < s.length then strTake s 147 ++ "..." else s

/-- Embedding of `get_last_error_from_log`, acting on the list of lines read
from the log file (the missing-file and read-error cases, which yield `None`
in Python, are handled by the callers passing `none` for the whole list). -/
def get_last_error_from_log (lines : List String) : Option String :=
  if lines = [] then none
  else
    let last_lines := lastTenLines lines
    let error_lines := (last_lines.map pyStrip).filter isErrorLine
    match error_lines.getLast? with
    | some lastError => some (truncate150 lastError)
    | none =>
        match ((last_lines.reverse).map pyStrip).find?
            (fun l => decide (10 < l.length)) with
        | some l => some (truncate150 l)
        | none => none

/-- The case-insensitive marker set named by the specification: `error`,
`failed`, `exception`, `traceback`, and the common exception-class tokens. -/
def specMarkers : List String :=
  ["error", "failed", "exception", "traceback",
   "runtimeerror", "valueerror", "importerror"]

/-- Modelled from the spec wording of the scan step only, for comparison with
the code: a line carries a marker when it contains one case-insensitively. -/
def isErrorLineSpec (l : String) : Bool :=
  specMarkers.any (fun k => strContainsSub (pyLower l) k)

/-- The summary extraction as the specification describes it: scan the last
ten lines for case-insensitive markers taking the last match, fall back to the
last stripped line longer than 10 characters, truncate to 147 plus ellipsis. -/
def specErrorSummary (lines : List String) : Option String :=
  let window := (lastTenLines lines).reverse.map pyStrip
  match window.find? isErrorLineSpec with
  | some e => some (truncate150 e)
  | none => (window.find? (fun l => decide (10 < l.length))).map truncate150

/-- The code-faithful summary written in the same reverse-scan style as
`specErrorSummary` but with the code's literal keyword list; used to state the
amended form of the log-scan claim as a refinement. -/
def codeErrorSummary (lines : List String) : Option String :=
  let window := (lastTenLines lines).reverse.map pyStrip
  match window.find? isErrorLine with
  | some e => some (truncate150 e)
  | none => (window.find? (fun l => decide (10 < l.length))).map truncate150

/-! ### `is_process_alive` (lines 45-81) -/

/-- Oracle for the OS calls of `is_process_alive`: the Windows
`OpenProcess` (returning the truthiness of the handle) and the Unix
`os.kill(pid, 0)` probe; `.error` models a raised exception. -/
structure ProcWorld where
  isWindows : Bool
  openProcessHandle : Int → Except String Bool
  kill0 : Int → Except String Unit

/-- Embedding of `is_process_alive(pid)`. The `None`/nonpositive guard sits
before the `try` block, exactly as in the source; every exception raised by
the platform probes is caught and turned into `False`. -/
def is_process_alive (w : ProcWorld) (pid : Option Int) : Bool :=
  match pid with
  | none => false
  | some p =>
    if p ≤ 0 then false
    else if w.isWindows then
      match w.openProcessHandle p with
      | .ok handle => handle
      | .error _ => false
    else
      match w.kill0 p with
      | .ok _ => true
      | .error _ => false

/-! ### `monitor_parent_process` (lines 84-115)

The liveness observations made by successive loop iterations are a Boolean
stream `aliveSeq` (iteration `i` sleeps, then evaluates
`is_process_alive(parent_pid)`, giving `aliveSeq i`).  The loop body is run
for at most `fuel` iterations; the outcome records how many checks ran,
how many times the shutdown callback was invoked, and whether the loop
exited via its `break`. -/

structure MonitorOutcome where
  callbackCalls : Nat
  checks : Nat
  exited : Bool
  deriving DecidableEq, Repr

/-- The `while True` body of `monitor_parent_process`, starting at iteration
`i`, allowed to run `fuel` more iterations. -/
def monitorFrom (aliveSeq : Nat → Bool) (i : Nat) : Nat → MonitorOutcome
  | 0 => { callbackCalls := 0, checks := 0, exited := false }
  | fuel + 1 =>
    if aliveSeq i then
      let r := monitorFrom aliveSeq (i + 1) fuel
      { r with checks := r.checks + 1 }
    else
      { callbackCalls := 1, checks := 1, exited := true }

/-- Embedding of `monitor_parent_process`, observed for `fuel` iterations. -/
def monitor_parent_process (aliveSeq : Nat → Bool) (fuel : Nat) :
    MonitorOutcome :=
  monitorFrom aliveSeq 0 fuel

/-- Wall-clock instant of check number `i` when the loop sleeps
`d` time units before every check (`check_interval`): the monitor sleeps
first, so check `i` happens at time `(i+1)*d`. -/
def checkTime (d i : Nat) : Nat := (i + 1) * d

/-- The observation stream induced by an ancestor-liveness history
`aliveAt : time → Bool` sampled at the check instants. -/
def aliveSeqOf (aliveAt : Nat → Bool) (d i : Nat) : Bool :=
  aliveAt (checkTime d i)

/-! ### Environment resolver (lines 216-430)

`EnvWorld` packages the OS facts those functions consult.  Downloading and
extraction change the filesystem, so their post-state observations are
separate oracle fields (`archiveExistsAfterDownload`, `checkAfterExtract`)
rather than re-reads of `pathExists`. -/

/-- Result dict of `check_environment`. -/
structure CheckResult where
  status : String
  pythonPath : Option String := none
  version : Option String := none
  errorMsg : Option String := none
  deriving DecidableEq, Repr

structure EnvWorld where
  isWindows : Bool := false
  cwd : String := "/"
  pathExists : String → Bool
  /-- `subprocess.run([python, "--version"])`: `.ok (returncode, stdout,
  stderr)`, `.error` a raised exception. -/
  runVersionProbe : String → Except String (Int × String × String)
  /-- `platformdirs.user_cache_dir("Dipper", "BioacousticsApp")`. -/
  defaultCacheDir : String
  /-- Outcome of `gdown.download`. -/
  downloadOutcome : Except String Unit
  /-- Whether the archive path exists once the download reported success. -/
  archiveExistsAfterDownload : Bool
  /-- Outcome of `tarfile.open(...).extractall`. -/
  tarExtractOutcome : Except String Unit
  /-- Result of `check_environment(extract_dir)` evaluated after extraction
  changed the filesystem. -/
  checkAfterExtract : CheckResult

/-- `get_default_env_path` (lines 217-223). -/
def get_default_env_path (w : EnvWorld) : String :=
  w.defaultCacheDir ++ "/envs/dipper_pytorch_env"

/-- `get_default_env_archive_path` (lines 226-230). -/
def get_default_env_archive_path (w : EnvWorld) : String :=
  w.defaultCacheDir ++ "/archives/dipper_pytorch_env.tar.gz"

/-- Absolute-path test used by `resolve_path` (`os.path.isabs`). -/
def isAbsPath (p : String) : Bool :=
  match p.data with
  | [] => false
  | c :: _ => c = '/'

/-- `resolve_path` (lines 317-327) with no `base_dir`: relative paths are
made absolute against the current working directory. -/
def resolve_path (w : EnvWorld) (p : String) : String :=
  if isAbsPath p then p else w.cwd ++ "/" ++ p

/-- Embedding of `check_environment(env_path)` (lines 261-288).  The only
statement inside its `try` that can raise is the `subprocess.run` probe; a
raised exception produces the `"error"` result of the `except` branch. -/
def check_environment (w : EnvWorld) (envPath : String) : CheckResult :=
  let pythonPath :=
    if w.isWindows then envPath ++ "\\python.exe" else envPath ++ "/bin/python"
  if w.pathExists pythonPath then
    match w.runVersionProbe pythonPath with
    | .error e => { status := "error", errorMsg := some e }
    | .ok (rc, out, err) =>
      if rc = 0 then
        { status := "ready", pythonPath := some pythonPath,
          version := some (pyStrip out) }
      else
        { status := "broken", errorMsg := some ("Python check failed: " ++ err) }
  else
    { status := "missing", pythonPath := some pythonPath }

/-- Result dict of `download_environment_from_gdrive` (lines 240-258). -/
structure DownloadResult where
  status : String
  archivePath : Option String := none
  errorMsg : Option String := none
  deriving DecidableEq, Repr

def download_environment_from_gdrive (w : EnvWorld) : DownloadResult :=
  match w.downloadOutcome with
  | .ok _ => { status := "success",
               archivePath := some (get_default_env_archive_path w) }
  | .error e => { status := "error", errorMsg := some e }

/-- Result dict of `extract_environment` (lines 291-314). -/
structure ExtractResult where
  status : String
  envPath : Option String := none
  errorMsg : Option String := none
  deriving DecidableEq, Repr

/-- Embedding of `extract_environment(archive_path, extract_dir)`: extract the
tarball, then accept when the post-extraction check is `ready` or `missing`. -/
def extract_environment (w : EnvWorld) (archivePath extractDir : String) :
    ExtractResult :=
  match w.tarExtractOutcome with
  | .error e => { status := "error", errorMsg := some e }
  | .ok _ =>
    let envCheck := w.checkAfterExtract
    if envCheck.status = "ready" ∨ envCheck.status = "missing" then
      { status := "success", envPath := some extractDir }
    else
      { status := "error",
        errorMsg := some ("Environment extraction failed: " ++
          (envCheck.errorMsg.getD "Unknown error")) }

/-- Result dict of `setup_environment`. -/
structure SetupResult where
  status : String
  pythonPath : Option String := none
  message : Option String := none
  errorMsg : Option String := none
  deriving DecidableEq, Repr

/-- Side effects performed by one `setup_environment` call: whether a download
was attempted, whether an extraction was attempted, and how many times an
environment check (interpreter version probe) ran. -/
structure SetupEffects where
  downloaded : Bool := false
  extracted : Bool := false
  envChecks : Nat := 0
  deriving DecidableEq, Repr

/-- Embedding of `setup_environment(env_dir)` (lines 330-430), paired with the
effects it performs.  `envDir = some d` is the custom-environment mode;
`none` selects the managed default environment. -/
def setup_environment (w : EnvWorld) (envDir : Option String) :
    SetupResult × SetupEffects :=
  match envDir with
  | some d =>
    let d := resolve_path w d
    let envCheck := check_environment w d
    if envCheck.status = "ready" then
      ({ status := "ready", pythonPath := envCheck.pythonPath,
         message := some "Environment already ready" },
       { envChecks := 1 })
    else
      ({ status := "error",
         errorMsg := some ("User-specified custom environment " ++ d ++
           " could not be used: " ++ (envCheck.errorMsg.getD "Unknown error")) },
       { envChecks := 1 })
  | none =>
    let envDir := get_default_env_path w
    let envCheck := check_environment w envDir
    if envCheck.status = "ready" then
      ({ status := "ready", pythonPath := envCheck.pythonPath,
         message := some "Environment already ready" },
       { envChecks := 1 })
    else
      let archivePath := get_default_env_archive_path w
      let cached := w.pathExists archivePath
      let afterDownload : Except String Bool :=
        if cached then .ok true
        else
          match download_environment_from_gdrive w with
          | { status := "success", .. } => .ok w.archiveExistsAfterDownload
          | r => .error ("Failed to download environment: " ++
              (r.errorMsg.getD "Unknown error"))
      match afterDownload with
      | .error e =>
        ({ status := "error", errorMsg := some e },
         { envChecks := 1, downloaded := !cached })
      | .ok archiveThere =>
        if archiveThere then
          let extractResult := extract_environment w archivePath envDir
          if extractResult.status = "success" then
            let finalCheck := w.checkAfterExtract
            if finalCheck.status = "ready" then
              ({ status := "ready", pythonPath := finalCheck.pythonPath,
                 message := some "Environment extracted and ready" },
               { envChecks := 3, downloaded := !cached, extracted := true })
            else
              ({ status := "error",
                 errorMsg := some ("Environment setup failed: " ++
                   (finalCheck.errorMsg.getD "Unknown error")) },
               { envChecks := 3, downloaded := !cached, extracted := true })
          else
            ({ status := extractResult.status,
               errorMsg := extractResult.errorMsg },
             { envChecks := 2, downloaded := !cached, extracted := true })
        else
          ({ status := "error",
             errorMsg := some ("Archive not found at " ++ archivePath) },
           { envChecks := 1, downloaded := !cached })

/-! ### Job records, registry, and status checking (lines 521-631, 808-904,
1831-2174) -/

/-- The sidecar read attempted by the status checkers: the `.status` file may
be absent, its open/parse may raise (swallowed), or it yields the four
optional detail fields. -/
inductive SidecarOutcome where
  | noFile
  | readError
  | ok (stage progress message metadata : Option String)
  deriving DecidableEq, Repr

/-- The status dict built by `check_inference_status` and relatives, and by
the terminal stubs of the status handlers.  A `none` field is an absent key. -/
structure StatusResult where
  status : String
  message : Option String := none
  stage : Option String := none
  progress : Option String := none
  metadata : Option String := none
  output : Option String := none
  stdoutField : Option String := none
  stderrField : Option String := none
  errorMsg : Option String := none
  exitCode : Option Int := none
  deriving DecidableEq, Repr

/-- One entry of `self.running_jobs`.  The live process handle itself is not
stored; its observations enter through the handlers' oracle arguments. -/
structure JobRecord where
  status : String
  jobId : String
  systemPid : Nat
  command : String
  startedAt : Nat
  jobType : Option String := none
  logFilePath : Option String := none
  jobFolder : Option String := none
  lastChecked : Option Nat := none
  cancelledAt : Option Nat := none
  message : Option String := none
  errorMsg : Option String := none
  exitCode : Option Int := none
  output : Option String := none
  stdoutSaved : Option String := none
  stderrSaved : Option String := none
  deriving DecidableEq, Repr

/-- Python `job_info.update(status_result)`: keys present in the status dict
replace the stored ones, absent keys keep the stored values.  (Only terminal
status dicts are merged by the handlers, and those never carry
stage/progress/metadata keys.) -/
def JobRecord.update (j : JobRecord) (s : StatusResult) : JobRecord :=
  { j with
    status := s.status,
    message := s.message <|> j.message,
    errorMsg := s.errorMsg <|> j.errorMsg,
    exitCode := s.exitCode <|> j.exitCode,
    output := s.output <|> j.output,
    stdoutSaved := s.stdoutField <|> j.stdoutSaved,
    stderrSaved := s.stderrField <|> j.stderrSaved }

/-- `self.running_jobs` as an association list keyed by job id. -/
abbrev Registry := List (String × JobRecord)

/-- Dict lookup `self.running_jobs[job_id]` / `job_id in self.running_jobs`. -/
def Registry.find? : Registry → String → Option JobRecord
  | [], _ => none
  | (k, v) :: rest, key => if k = key then some v else Registry.find? rest key

/-- Dict assignment `self.running_jobs[job_id] = record`. -/
def Registry.insert : Registry → String → JobRecord → Registry
  | [], key, v => [(key, v)]
  | (k, w) :: rest, key, v =>
    if k = key then (key, v) :: rest else (k, w) :: Registry.insert rest key v

/-- The terminal-status membership test
`status in ["cancelled", "completed", "failed"]`. -/
def isTerminal (s : String) : Bool :=
  s = "cancelled" || s = "completed" || s = "failed"

/-- Embedding of `check_inference_status(process, job_info)` (lines 521-631).
Oracles: `poll` is `process.poll()` (`none` while running, `some rc` once
exited); `sidecar` the attempted read of `job_folder/.status`; `logLines` the
content of the log file (`none` when missing or unreadable); `procStdout`,
`procStderr` the streams drained by `process.communicate()`.

The run handlers always store the `job_folder` key (value `None` when the
config omits it), so the `"job_folder" in job_info` membership test succeeds;
when the stored value is `None`, `os.path.join(None, ".status")` raises
`TypeError` before the sidecar `try` is entered, and the function-level
`except` turns it into the `"error"` result. -/
def check_inference_status (poll : Option Int) (jobInfo : JobRecord)
    (sidecar : SidecarOutcome) (logLines : Option (List String))
    (procStdout procStderr : Option String) : StatusResult :=
  match poll with
  | none =>
    let base : StatusResult :=
      { status := "running", message := some "Inference process is initializing" }
    match jobInfo.jobFolder with
    | none =>
      { status := "error",
        errorMsg :=
          some "expected str, bytes or os.PathLike object, not NoneType" }
    | some _ =>
      match sidecar with
      | .ok st pr me md =>
        { base with stage := st, progress := pr,
                    message := me <|> base.message, metadata := md }
      | _ => base
  | some rc =>
    if jobInfo.status = "cancelled" then
      { status := "cancelled",
        message := some "Inference was cancelled by user", exitCode := some rc }
    else if rc = 0 then
      { status := "completed",
        message := some "Inference completed successfully",
        output := some (pyOr procStdout "Output redirected to log file"),
        stdoutField := some (pyOr procStdout "Output redirected to log file"),
        stderrField := some (pyOr procStderr ""), exitCode := some rc }
    else
      let fallbackMsg := "Inference failed with exit code " ++ toString rc
      let errorMessage :=
        match jobInfo.logFilePath with
        | none => fallbackMsg
        | some _ =>
          match logLines.bind get_last_error_from_log with
          | some lastError =>
            lastError ++ " (see log file for full error message)"
          | none => fallbackMsg
      { status := "failed", errorMsg := some errorMessage, exitCode := some rc,
        stdoutField := some (pyOr procStdout "Output redirected to log file"),
        stderrField := some (pyOr procStderr
          "Error output redirected to log file") }

/-- Embedding of `check_training_status(process, job_info)` (lines 808-904);
identical control flow to the inference checker, different message texts —
including the `TypeError`-to-`"error"` path when the stored `job_folder` is
`None` (lines 825-826, 903-904). -/
def check_training_status (poll : Option Int) (jobInfo : JobRecord)
    (sidecar : SidecarOutcome) (logLines : Option (List String))
    (procStdout procStderr : Option String) : StatusResult :=
  match poll with
  | none =>
    let base : StatusResult :=
      { status := "running", message := some "Training process is still running" }
    match jobInfo.jobFolder with
    | none =>
      { status := "error",
        errorMsg :=
          some "expected str, bytes or os.PathLike object, not NoneType" }
    | some _ =>
      match sidecar with
      | .ok st pr me md =>
        { base with stage := st, progress := pr,
                    message := me <|> base.message, metadata := md }
      | _ => base
  | some rc =>
    if jobInfo.status = "cancelled" then
      { status := "cancelled",
        message := some "Training was cancelled by user", exitCode := some rc }
    else if rc = 0 then
      { status := "completed",
        message := some "Training completed successfully",
        output := some (pyOr procStdout "Output redirected to log file"),
        stdoutField := some (pyOr procStdout "Output redirected to log file"),
        stderrField := some (pyOr procStderr ""), exitCode := some rc }
    else
      let fallbackMsg := "Training failed with exit code " ++ toString rc
      let errorMessage :=
        match jobInfo.logFilePath with
        | none => fallbackMsg
        | some _ =>
          match logLines.bind get_last_error_from_log with
          | some lastError =>
            lastError ++ " (see log file for full error message)"
          | none => fallbackMsg
      { status := "failed", errorMsg := some errorMessage, exitCode := some rc,
        stdoutField := some (pyOr procStdout "Output redirected to log file"),
        stderrField := some (pyOr procStderr
          "Error output redirected to log file") }

/-! ### HTTP handlers (lines 1831-2174) -/

/-- Body and HTTP code of a `run` response. -/
structure RunResponse where
  httpStatus : Nat
  status : Option String := none
  jobId : Option String := none
  message : Option String := none
  errorMsg : Option String := none
  deriving DecidableEq, Repr

/-- The outcome of `start_inference_process` / `start_training_process`:
either the spawned process facts or the error dict. -/
inductive StartOutcome where
  | started (systemPid : Nat) (command : String)
      (logFilePath jobFolder : Option String)
  | failure (msg : String)
  deriving DecidableEq, Repr

/-- Embedding of `LightweightServer.run_inference` (lines 1831-1885).
`reqJobId = none` models an absent `job_id` key, in which case the
timestamp-derived `defaultJobId` is used. -/
def run_inference (reg : Registry) (w : EnvWorld) (configPath : Option String)
    (envPath : Option String) (reqJobId : Option String) (defaultJobId : String)
    (start : StartOutcome) (now : Nat) : Registry × RunResponse :=
  let jobId := reqJobId.getD defaultJobId
  match configPath with
  | none => (reg, { httpStatus := 400, errorMsg := some "config_path required" })
  | some _ =>
    let envResult := (setup_environment w envPath).fst
    if envResult.status = "ready" then
      match start with
      | .started pid cmd logFilePath jobFolder =>
        (Registry.insert reg jobId
          { status := "running", jobId := jobId, systemPid := pid,
            command := cmd, startedAt := now,
            logFilePath := logFilePath, jobFolder := jobFolder },
         { httpStatus := 200, status := some "started", jobId := some jobId,
           message := some ("Inference started successfully. " ++
             "Use /inference/status/\x7bjob_id\x7d to check progress.") })
      | .failure msg =>
        (reg, { httpStatus := 500, status := some "error",
                errorMsg := some msg })
    else
      (reg, { httpStatus := 500, status := some envResult.status,
              message := envResult.message, errorMsg := envResult.errorMsg })

/-- Embedding of `LightweightServer.run_training` (lines 2002-2057). -/
def run_training (reg : Registry) (w : EnvWorld) (configPath : Option String)
    (envPath : Option String) (reqJobId : Option String) (defaultJobId : String)
    (start : StartOutcome) (now : Nat) : Registry × RunResponse :=
  let jobId := reqJobId.getD defaultJobId
  match configPath with
  | none => (reg, { httpStatus := 400, errorMsg := some "config_path required" })
  | some _ =>
    let envResult := (setup_environment w envPath).fst
    if envResult.status = "ready" then
      match start with
      | .started pid cmd logFilePath jobFolder =>
        (Registry.insert reg jobId
          { status := "running", jobId := jobId, systemPid := pid,
            command := cmd, startedAt := now, jobType := some "training",
            logFilePath := logFilePath, jobFolder := jobFolder },
         { httpStatus := 200, status := some "started", jobId := some jobId,
           message := some ("Training started successfully. " ++
             "Use /training/status/\x7bjob_id\x7d to check progress.") })
      | .failure msg =>
        (reg, { httpStatus := 500, status := some "error",
                errorMsg := some msg })
    else
      (reg, { httpStatus := 500, status := some envResult.status,
              message := envResult.message, errorMsg := envResult.errorMsg })

/-- Body and HTTP code of a status response: the per-job header fields plus
the spread `**status_result`. -/
structure StatusHttpResponse where
  httpStatus : Nat
  jobId : Option String := none
  systemPid : Option Nat := none
  jobType : Option String := none
  startedAt : Option Nat := none
  lastChecked : Option Nat := none
  result : StatusResult := { status := "" }
  deriving DecidableEq, Repr

/-- Embedding of `LightweightServer.get_inference_status` (lines 1887-1942). -/
def get_inference_status (reg : Registry) (jobId : String) (poll : Option Int)
    (sidecar : SidecarOutcome) (logLines : Option (List String))
    (procStdout procStderr : Option String) (now : Nat) :
    Registry × StatusHttpResponse :=
  match Registry.find? reg jobId with
  | none =>
    (reg, { httpStatus := 404,
            result := { status := "error",
                        errorMsg := some ("Job " ++ jobId ++ " not found") } })
  | some jobInfo0 =>
    let statusResult :=
      if isTerminal jobInfo0.status then
        if jobInfo0.status = "cancelled" then
          { status := "cancelled", message := some "Job was cancelled by user" }
        else if jobInfo0.status = "completed" then
          { status := "completed",
            message := some "Inference completed successfully" }
        else
          { status := "failed", message := some "Inference failed" }
      else
        check_inference_status poll jobInfo0 sidecar logLines procStdout
          procStderr
    let jobInfo1 :=
      if isTerminal jobInfo0.status then jobInfo0
      else { jobInfo0 with status := statusResult.status }
    let jobInfo2 := { jobInfo1 with lastChecked := some now }
    let jobInfo3 :=
      if isTerminal statusResult.status then jobInfo2.update statusResult
      else jobInfo2
    (Registry.insert reg jobId jobInfo3,
     { httpStatus := 200, jobId := some jobId,
       systemPid := some jobInfo3.systemPid,
       startedAt := some jobInfo3.startedAt,
       lastChecked := jobInfo3.lastChecked,
       result := statusResult })

/-- Embedding of `LightweightServer.get_training_status` (lines 2059-2116). -/
def get_training_status (reg : Registry) (jobId : String) (poll : Option Int)
    (sidecar : SidecarOutcome) (logLines : Option (List String))
    (procStdout procStderr : Option String) (now : Nat) :
    Registry × StatusHttpResponse :=
  match Registry.find? reg jobId with
  | none =>
    (reg, { httpStatus := 404,
            result := { status := "error",
                        errorMsg :=
                          some ("Training job " ++ jobId ++ " not found") } })
  | some jobInfo0 =>
    let statusResult :=
      if isTerminal jobInfo0.status then
        if jobInfo0.status = "cancelled" then
          { status := "cancelled", message := some "Job was cancelled by user" }
        else if jobInfo0.status = "completed" then
          { status := "completed",
            message := some "Training completed successfully" }
        else
          { status := "failed", message := some "Training failed" }
      else
        check_training_status poll jobInfo0 sidecar logLines procStdout
          procStderr
    let jobInfo1 :=
      if isTerminal jobInfo0.status then jobInfo0
      else { jobInfo0 with status := statusResult.status }
    let jobInfo2 := { jobInfo1 with lastChecked := some now }
    let jobInfo3 :=
      if isTerminal statusResult.status then jobInfo2.update statusResult
      else jobInfo2
    (Registry.insert reg jobId jobInfo3,
     { httpStatus := 200, jobId := some jobId,
       systemPid := some jobInfo3.systemPid, jobType := some "training",
       startedAt := some jobInfo3.startedAt,
       lastChecked := jobInfo3.lastChecked,
       result := statusResult })

/-- Body and HTTP code of a cancel response. -/
structure CancelResponse where
  httpStatus : Nat
  status : Option String := none
  jobId : Option String := none
  message : Option String := none
  errorMsg : Option String := none
  deriving DecidableEq, Repr

/-- Embedding of `LightweightServer.cancel_inference` (lines 1944-1999).  The
only guard is dict membership; `terminate`/`kill` act on the external process
and cannot change the stored record, so they are not modelled; the record is
then unconditionally marked cancelled with a timestamp. -/
def cancel_inference (reg : Registry) (jobId : String) (now : Nat) :
    Registry × CancelResponse :=
  match Registry.find? reg jobId with
  | none =>
    (reg, { httpStatus := 404, status := some "error",
            errorMsg := some ("Job " ++ jobId ++ " not found") })
  | some jobInfo =>
    (Registry.insert reg jobId
      { jobInfo with status := "cancelled", cancelledAt := some now },
     { httpStatus := 200, status := some "cancelled", jobId := some jobId,
       message := some "Inference job cancelled successfully" })

/-- Embedding of `LightweightServer.cancel_training` (lines 2118-2174). -/
def cancel_training (reg : Registry) (jobId : String) (now : Nat) :
    Registry × CancelResponse :=
  match Registry.find? reg jobId with
  | none =>
    (reg, { httpStatus := 404, status := some "error",
            errorMsg := some ("Training job " ++ jobId ++ " not found") })
  | some jobInfo =>
    (Registry.insert reg jobId
      { jobInfo with status := "cancelled", cancelledAt := some now },
     { httpStatus := 200, status := some "cancelled", jobId := some jobId,
       message := some "Training job cancelled successfully" })

/-! ### Concrete fixtures used by counterexamples and witnesses -/

/-- A world in which every path exists and the interpreter probe succeeds. -/
def wReady : EnvWorld :=
  { pathExists := fun _ => true,
    runVersionProbe := fun _ => .ok (0, "Python 3.10.0", ""),
    defaultCacheDir := "/cache",
    downloadOutcome := .ok (),
    archiveExistsAfterDownload := true,
    tarExtractOutcome := .ok (),
    checkAfterExtract := { status := "ready", pythonPath := some "/p" } }

/-- Like `wReady` but the `subprocess.run` version probe raises. -/
def wProbeRaises : EnvWorld :=
  { wReady with runVersionProbe := fun _ => .error "OSError raised by subprocess.run" }

/-- A still-running registered job. -/
def recRunning : JobRecord :=
  { status := "running", jobId := "j", systemPid := 11, command := "cmd1",
    startedAt := 0 }

/-- A registry holding just the running job `"j"`. -/
def regRun : Registry := [("j", recRunning)]

/-- A job whose record reached the terminal status `completed` with the
memoized exit code. -/
def recDone : JobRecord :=
  { status := "completed", jobId := "k", systemPid := 7, command := "c",
    startedAt := 0, exitCode := some 0 }

/-- A registry holding just the completed job `"k"`. -/
def regDone : Registry := [("k", recDone)]

/-- Log lines on which the case-insensitive scan of the specification and the
case-sensitive scan of the code disagree: the marker word EXCEPTION is
upper-case, so no literal keyword of the code matches it. -/
def cexLines : List String :=
  ["FATAL EXCEPTION IN WORKER", "all done now printing"]

/-- A Unix process world whose liveness probe raises. -/
def wProcTest : ProcWorld :=
  { isWindows := false,
    openProcessHandle := fun _ => .error "No such process",
    kill0 := fun _ => .error "No such process" }

/-! ## Theorems -/

/-! ### Helper lemmas -/

/-- Taking the last element of the filtered list is the same as searching the
reversed list: this connects the code shape of `get_last_error_from_log`
(`error_lines[-1]`) with the reverse-scan shape of `codeErrorSummary`. -/
theorem filter_getLast?_eq_reverse_find? {α : Type} (p : α → Bool)
    (l : List α) : (l.filter p).getLast? = l.reverse.find? p := by
  induction l using List.reverseRecOn with
  | nil => rfl
  | append_singleton l a ih =>
    by_cases hpa : p a
    · simp [List.filter_append, hpa, List.getLast?_concat]
    · simp only [List.filter_append, List.reverse_append, List.reverse_cons,
        List.reverse_nil, List.nil_append, List.singleton_append]
      rw [List.find?_cons_of_neg _ (by simpa using hpa)]
      simpa [List.filter_cons, hpa] using ih

/-- Looking up the key just inserted returns the inserted record. -/
theorem Registry.find?_insert_self (r : Registry) (k : String) (v : JobRecord) :
    Registry.find? (Registry.insert r k v) k = some v := by
  induction r with
  | nil => simp [Registry.insert, Registry.find?]
  | cons p rest ih =>
    obtain ⟨k1, v1⟩ := p
    by_cases h : k1 = k <;> simp [Registry.insert, Registry.find?, h, ih]

/-- A terminal status string is one of the three literals. -/
theorem isTerminal_cases {s : String} (h : isTerminal s = true) :
    s = "cancelled" ∨ s = "completed" ∨ s = "failed" := by
  simpa [isTerminal, Bool.or_eq_true, decide_eq_true_iff, or_assoc] using h

/-- The truncation step never emits more than 150 characters. -/
theorem truncate150_length (s : String) : (truncate150 s).length ≤ 150 := by
  unfold truncate150
  split
  · rename_i h
    rw [String.length_append]
    have h1 : (strTake s 147).length = 147 := by
      simp only [strTake, String.length]
      rw [List.length_take]
      have : 150 < s.data.length := h
      omega
    have h2 : ("..." : String).length = 3 := rfl
    omega
  · omega

/-- The code-shaped and reverse-scan-shaped summaries agree on every log. -/
theorem get_last_error_eq_code_summary (lines : List String) :
    get_last_error_from_log lines = codeErrorSummary lines := by
  unfold get_last_error_from_log codeErrorSummary
  by_cases h : lines = []
  · subst h; simp [lastTenLines]
  · simp only [if_neg h]
    rw [filter_getLast?_eq_reverse_find?, List.map_reverse]
    cases hfind : (List.find? isErrorLine ((lastTenLines lines).map pyStrip).reverse) with
    | some e => simp [hfind]
    | none =>
      simp only [hfind]
      cases hfind2 : (List.find? (fun l => decide (10 < l.length))
          ((lastTenLines lines).map pyStrip).reverse) <;> simp [hfind2]

/-- Whatever summary the log scan produces fits in 150 characters. -/
theorem get_last_error_length (lines : List String) (o : String)
    (h : get_last_error_from_log lines = some o) : o.length ≤ 150 := by
  unfold get_last_error_from_log at h
  by_cases hn : lines = []
  · simp [hn] at h
  · simp only [if_neg hn] at h
    split at h
    · rename_i e heq
      injection h with h
      exact h ▸ truncate150_length e
    · split at h
      · rename_i l heq
        injection h with h
        exact h ▸ truncate150_length l
      · exact Option.noConfusion h

/-! ### Claim C5 -/

/-- C5 counterexample: the code scans the last lines against the literal,
case-sensitive keyword list, not case-insensitively as the claim states.  On
these two log lines a case-insensitive scan as specified finds the marker
line `FATAL EXCEPTION IN WORKER`, while the code finds no keyword and falls
back to the last non-trivial line. -/
theorem log_scan_case_sensitivity_cex :
    specErrorSummary cexLines = some "FATAL EXCEPTION IN WORKER" ∧
    get_last_error_from_log cexLines = some "all done now printing" ∧
    get_last_error_from_log cexLines ≠ specErrorSummary cexLines := by decide

/-- C5 (amended): for a non-zero exit with a log file, the status check
reports `failed`; the error summary scans the last 10 lines for the literal
(case-sensitive) keyword list ERROR/Error/error, FAILED/Failed/failed,
Exception, Traceback, RuntimeError, ValueError, ImportError taking the last
matching stripped line, falls back to the last stripped line longer than 10
characters, truncates anything longer than 150 characters to 147 plus an
ellipsis (so every summary fits in 150 characters), and the reported error
appends a pointer to the full log file. -/
theorem log_error_summary_amended
    (lines ls : List String) (e lp : String) (rc : Int) (jobInfo : JobRecord)
    (sc : SidecarOutcome) (so sx : Option String)
    (hrc : rc ≠ 0) (hnc : jobInfo.status ≠ "cancelled")
    (hlp : jobInfo.logFilePath = some lp)
    (hsum : get_last_error_from_log ls = some e) :
    get_last_error_from_log lines = codeErrorSummary lines ∧
    (∀ o, get_last_error_from_log lines = some o → o.length ≤ 150) ∧
    (check_inference_status (some rc) jobInfo sc (some ls) so sx).status =
      "failed" ∧
    (check_inference_status (some rc) jobInfo sc (some ls) so sx).errorMsg =
      some (e ++ " (see log file for full error message)") ∧
    (check_training_status (some rc) jobInfo sc (some ls) so sx).status =
      "failed" ∧
    (check_training_status (some rc) jobInfo sc (some ls) so sx).errorMsg =
      some (e ++ " (see log file for full error message)") := by
  refine ⟨get_last_error_eq_code_summary lines,
          fun o ho => get_last_error_length lines o ho, ?_, ?_, ?_, ?_⟩ <;>
    simp [check_inference_status, check_training_status, hnc, hrc, hlp, hsum]

/-- C5 witness: the specification scenario, a log ending in
`RuntimeError: CUDA out of memory` with exit code 1. -/
theorem log_error_summary_witness :
    (check_inference_status (some 1)
      { recRunning with logFilePath := some "/tmp/job1/log.txt" }
      .noFile (some ["RuntimeError: CUDA out of memory"]) none none).errorMsg =
      some ("RuntimeError: CUDA out of memory" ++
        " (see log file for full error message)") ∧
    (check_inference_status (some 1)
      { recRunning with logFilePath := some "/tmp/job1/log.txt" }
      .noFile (some ["RuntimeError: CUDA out of memory"]) none none).status =
      "failed" :=
  have h := log_error_summary_amended cexLines
    ["RuntimeError: CUDA out of memory"] "RuntimeError: CUDA out of memory"
    "/tmp/job1/log.txt" 1
    { recRunning with logFilePath := some "/tmp/job1/log.txt" }
    .noFile none none (by decide) (by decide) rfl (by decide)
  ⟨h.2.2.2.1, h.2.2.1⟩

/-! ### Claim C8 -/

/-- C8 counterexample: when the interpreter binary exists but the
`subprocess.run` version probe raises, the `except` branch of
`check_environment` returns the status `"error"`, which lies outside the
`\x7bmissing, ready, broken\x7d` set declared by the data model. -/
theorem check_environment_error_status_cex :
    ¬ ((check_environment wProbeRaises "/env").status ∈
        (["missing", "ready", "broken"] : List String)) := by decide

/-- C8 (amended): checking an environment always produces a status in the
four-element set `\x7bmissing, ready, broken, error\x7d`: the three declared
statuses plus `"error"` for an exception raised during the version probe. -/
theorem check_environment_status_closed (w : EnvWorld) (p : String) :
    (check_environment w p).status ∈
      (["missing", "ready", "broken", "error"] : List String) := by
  by_cases hpe : w.pathExists
      (if w.isWindows then p ++ "\\python.exe" else p ++ "/bin/python")
  · rcases hpr : w.runVersionProbe
        (if w.isWindows then p ++ "\\python.exe" else p ++ "/bin/python")
      with e | ⟨rc, out, err⟩
    · simp [check_environment, hpe, hpr]
    · by_cases hrc : rc = 0 <;> simp [check_environment, hpe, hpr, hrc]
  · simp [check_environment, hpe]

/-! ### Claim C10 -/

/-- C10: `is_process_alive` is a total Boolean function; it returns `false`
(rather than raising) for a `None` pid and for a nonpositive pid, and any
OS-level error raised by either platform probe also yields `false`. -/
theorem is_process_alive_false_cases (w : ProcWorld) (p : Int) (e : String) :
    is_process_alive w none = false ∧
    (p ≤ 0 → is_process_alive w (some p) = false) ∧
    (w.isWindows = false → w.kill0 p = .error e →
      is_process_alive w (some p) = false) ∧
    (w.isWindows = true → w.openProcessHandle p = .error e →
      is_process_alive w (some p) = false) := by
  refine ⟨rfl, ?_, ?_, ?_⟩
  · intro hp; simp [is_process_alive, hp]
  · intro hw hk
    by_cases hp : p ≤ 0
    · simp [is_process_alive, hp]
    · simp [is_process_alive, hp, hw, hk]
  · intro hw ho
    by_cases hp : p ≤ 0
    · simp [is_process_alive, hp]
    · simp [is_process_alive, hp, hw, ho]

/-- C10 witness: concrete pids in the world whose probe raises. -/
theorem is_process_alive_witness :
    is_process_alive wProcTest none = false ∧
    is_process_alive wProcTest (some (-1)) = false ∧
    is_process_alive wProcTest (some 99) = false :=
  ⟨(is_process_alive_false_cases wProcTest 99 "No such process").1,
   (is_process_alive_false_cases wProcTest (-1) "No such process").2.1
     (by decide),
   (is_process_alive_false_cases wProcTest 99 "No such process").2.2.1
     rfl rfl⟩

/-! ### Claims C9, C7, C6 -/

/-- While every performed check observes the ancestor alive, the loop keeps
running: no callback, no exit. -/
theorem monitorFrom_all_alive (s : Nat → Bool) :
    ∀ (m i : Nat), (∀ j, j < m → s (i + j) = true) →
    monitorFrom s i m = { callbackCalls := 0, checks := m, exited := false } := by
  intro m
  induction m with
  | zero => intro i _; rfl
  | succ n ih =>
    intro i h
    have h0 : s i = true := by simpa using h 0 (Nat.succ_pos n)
    have hrest : ∀ j, j < n → s ((i + 1) + j) = true := by
      intro j hj
      have hx := h (j + 1) (by omega)
      have e : i + (j + 1) = (i + 1) + j := by omega
      rw [e] at hx; exact hx
    simp [monitorFrom, h0, ih (i + 1) hrest]

/-- When check `k` is the first to observe the ancestor dead, the loop
performs exactly `k + 1` checks, fires the callback once, and exits. -/
theorem monitorFrom_first_dead (s : Nat → Bool) :
    ∀ (k fuel i : Nat), s (i + k) = false → (∀ j, j < k → s (i + j) = true) →
    k < fuel →
    monitorFrom s i fuel =
      { callbackCalls := 1, checks := k + 1, exited := true } := by
  intro k
  induction k with
  | zero =>
    intro fuel i hk _ hf
    cases fuel with
    | zero => omega
    | succ n =>
      have h0 : s i = false := by simpa using hk
      simp [monitorFrom, h0]
  | succ m ih =>
    intro fuel i hk hprev hf
    cases fuel with
    | zero => omega
    | succ n =>
      have h0 : s i = true := by simpa using hprev 0 (Nat.succ_pos m)
      have hk2 : s ((i + 1) + m) = false := by
        have e : (i + 1) + m = i + (m + 1) := by omega
        rw [e]; exact hk
      have hprev2 : ∀ j, j < m → s ((i + 1) + j) = true := by
        intro j hj
        have hx := hprev (j + 1) (by omega)
        have e : i + (j + 1) = (i + 1) + j := by omega
        rw [e] at hx; exact hx
      simp [monitorFrom, h0, ih n (i + 1) hk2 hprev2 (by omega)]

/-- C9: started once, the parent-heartbeat monitor invokes the shutdown
callback exactly once, at the first periodic check observing the ancestor
dead, then exits with no further liveness check; it never invokes the
callback while the ancestor is observed alive; and when the ancestor is dead
from time `t` on, the triggering check happens within twice the check
interval after `t`. -/
theorem monitor_parent_fires_exactly_once
    (aliveAt : Nat → Bool) (d k fuel t : Nat)
    (hd : 0 < d)
    (hk : aliveAt (checkTime d k) = false)
    (hprev : ∀ j, j < k → aliveAt (checkTime d j) = true)
    (hfuel : k < fuel)
    (hdead : ∀ s, t ≤ s → aliveAt s = false) :
    monitor_parent_process (aliveSeqOf aliveAt d) fuel =
      { callbackCalls := 1, checks := k + 1, exited := true } ∧
    checkTime d k ≤ t + 2 * d ∧
    (∀ m, (∀ j, j < m → aliveAt (checkTime d j) = true) →
      monitor_parent_process (aliveSeqOf aliveAt d) m =
        { callbackCalls := 0, checks := m, exited := false }) := by
  refine ⟨?_, ?_, ?_⟩
  · exact monitorFrom_first_dead (aliveSeqOf aliveAt d) k fuel 0
      (by simpa [aliveSeqOf] using hk)
      (fun j hj => by simpa [aliveSeqOf] using hprev j hj) hfuel
  · cases k with
    | zero => simp [checkTime]; omega
    | succ m =>
      have halive : aliveAt (checkTime d m) = true := hprev m (by omega)
      have hlt : checkTime d m < t := by
        by_contra hge
        have hx := hdead (checkTime d m) (by omega)
        rw [hx] at halive; exact Bool.noConfusion halive
      have hstep : checkTime d (m + 1) = checkTime d m + d := by
        simp [checkTime]; ring
      omega
  · intro m hm
    exact monitorFrom_all_alive (aliveSeqOf aliveAt d) m 0
      (fun j hj => by simpa [aliveSeqOf] using hm j hj)

/-- C9 witness: interval 2, ancestor dead from time 5, third check (time 6)
fires the callback. -/
theorem monitor_parent_witness :
    monitor_parent_process (aliveSeqOf (fun s => decide (s < 5)) 2) 4 =
      { callbackCalls := 1, checks := 3, exited := true } ∧
    checkTime 2 2 ≤ 5 + 2 * 2 := by
  have h := monitor_parent_fires_exactly_once (fun s => decide (s < 5)) 2 2 4 5
    (by decide) (by decide) (by decide) (by decide)
    (by intro s hs; simp only [decide_eq_false_iff_not]; omega)
  exact ⟨h.1, h.2.1⟩

/-- C7: when the environment directory already validates as ready,
`setup_environment` returns ready after exactly one validation probe and
performs no archive download and no extraction, in both the custom-path mode
and the managed default mode; being pure in the world, an immediately
repeated call behaves identically, so the second call downloads and extracts
nothing. -/
theorem setup_environment_idempotent
    (w : EnvWorld) (d : String)
    (hc : (check_environment w (resolve_path w d)).status = "ready")
    (hdef : (check_environment w (get_default_env_path w)).status = "ready") :
    setup_environment w (some d) =
      ({ status := "ready",
         pythonPath := (check_environment w (resolve_path w d)).pythonPath,
         message := some "Environment already ready" },
       { downloaded := false, extracted := false, envChecks := 1 }) ∧
    setup_environment w none =
      ({ status := "ready",
         pythonPath := (check_environment w (get_default_env_path w)).pythonPath,
         message := some "Environment already ready" },
       { downloaded := false, extracted := false, envChecks := 1 }) := by
  constructor
  · simp [setup_environment, hc]
  · simp [setup_environment, hdef]

/-- C7 witness: a world where both the custom path and the default cache
environment validate as ready. -/
theorem setup_environment_idempotent_witness :
    setup_environment wReady (some "/env") =
      ({ status := "ready", pythonPath := some "/env/bin/python",
         message := some "Environment already ready" },
       { downloaded := false, extracted := false, envChecks := 1 }) ∧
    setup_environment wReady none =
      ({ status := "ready",
         pythonPath := some "/cache/envs/dipper_pytorch_env/bin/python",
         message := some "Environment already ready" },
       { downloaded := false, extracted := false, envChecks := 1 }) := by
  have h := setup_environment_idempotent wReady "/env" (by decide) (by decide)
  refine ⟨?_, ?_⟩
  · rw [h.1]; decide
  · rw [h.2]; decide

/-- C6 counterexample: a poll of a still-running job whose stored
`job_folder` is `None` (a registered state the run handlers produce whenever
the config omits `job_folder`, e.g. the record of `recRunning`) does not
return status `running`: locating the sidecar file raises `TypeError`, the
function-level `except` catches it, and the check reports status `"error"`. -/
theorem sidecar_none_folder_cex :
    recRunning.status = "running" ∧
    recRunning.jobFolder = none ∧
    (check_inference_status none recRunning .noFile none none none).status =
      "error" ∧
    (check_inference_status none recRunning .noFile none none none).status ≠
      "running" ∧
    (check_training_status none recRunning .noFile none none none).status =
      "error" := by decide

/-- C6 (amended): while the process is still running (poll returns no exit
code), for a job whose record carries a `job_folder` path the status check
reports `running` for every sidecar outcome, and a missing sidecar file or a
raised read/parse error yields exactly the bare running response with no
stage/progress/message/metadata detail.  When the stored `job_folder` is
`None`, building the sidecar path raises and the check reports status
`"error"` instead of `running`.  In no case does a sidecar problem make a
running job report `failed`.  Both the inference and the training checker
behave this way. -/
theorem sidecar_failures_swallowed
    (jobInfo : JobRecord) (f : String) (sc : SidecarOutcome)
    (log : Option (List String)) (so se : Option String)
    (hf : jobInfo.jobFolder = some f) :
    (check_inference_status none jobInfo sc log so se).status = "running" ∧
    check_inference_status none jobInfo .noFile log so se =
      { status := "running",
        message := some "Inference process is initializing" } ∧
    check_inference_status none jobInfo .readError log so se =
      { status := "running",
        message := some "Inference process is initializing" } ∧
    (check_training_status none jobInfo sc log so se).status = "running" ∧
    check_training_status none jobInfo .noFile log so se =
      { status := "running",
        message := some "Training process is still running" } ∧
    check_training_status none jobInfo .readError log so se =
      { status := "running",
        message := some "Training process is still running" } ∧
    (∀ (ji : JobRecord) (sc2 : SidecarOutcome),
      (ji.jobFolder = none →
        (check_inference_status none ji sc2 log so se).status = "error" ∧
        (check_training_status none ji sc2 log so se).status = "error") ∧
      (check_inference_status none ji sc2 log so se).status ≠ "failed" ∧
      (check_training_status none ji sc2 log so se).status ≠ "failed") := by
  refine ⟨?_, ?_, ?_, ?_, ?_, ?_, ?_⟩
  · cases sc <;> simp [check_inference_status, hf]
  · simp [check_inference_status, hf]
  · simp [check_inference_status, hf]
  · cases sc <;> simp [check_training_status, hf]
  · simp [check_training_status, hf]
  · simp [check_training_status, hf]
  · intro ji sc2
    refine ⟨fun hn => ?_, ?_, ?_⟩ <;>
      cases hjf : ji.jobFolder <;> cases sc2 <;>
        simp_all [check_inference_status, check_training_status]

/-- C6 witness: a job with a job_folder path whose sidecar read raises keeps
reporting the bare running response. -/
theorem sidecar_failures_swallowed_witness :
    (check_inference_status none
      { recRunning with jobFolder := some "/tmp/job1" } .readError none none
      none).status = "running" ∧
    check_training_status none
      { recRunning with jobFolder := some "/tmp/job1" } .readError none none
      none =
      { status := "running",
        message := some "Training process is still running" } := by
  have h := sidecar_failures_swallowed
    { recRunning with jobFolder := some "/tmp/job1" } "/tmp/job1" .readError
    none none none rfl
  exact ⟨h.1, h.2.2.2.2.2.1⟩

/-! ### Claim C1 -/

/-- C1 counterexample: the run handlers perform no id-collision check.  With
job `"j"` registered and still running, a run request reusing `job_id = "j"`
is not rejected: it answers `started` and replaces the existing registry
record (the stored record is no longer the original one). -/
theorem run_collision_cex :
    recRunning.status = "running" ∧
    Registry.find? regRun "j" = some recRunning ∧
    (run_inference regRun wReady (some "cfg.json") none (some "j") "job_1"
        (.started 22 "cmd2" none none) 5).snd.status = some "started" ∧
    Registry.find? (run_inference regRun wReady (some "cfg.json") none
        (some "j") "job_1" (.started 22 "cmd2" none none) 5).fst "j" ≠
      some recRunning := by decide

/-- C1 (amended): the run handlers never check the registry for a colliding
id.  Whenever the environment resolves ready and the spawn succeeds, both
`run_inference` and `run_training` answer `started` with the caller-supplied
id (or the timestamp default) and unconditionally install a fresh running
record under that id, replacing any existing record — including one whose
job is still running. -/
theorem run_handlers_overwrite
    (reg : Registry) (w : EnvWorld) (c : String)
    (envPath reqJobId : Option String) (defId : String)
    (pid : Nat) (cmd : String) (lfp jf : Option String) (now : Nat)
    (henv : (setup_environment w envPath).fst.status = "ready") :
    (run_inference reg w (some c) envPath reqJobId defId
        (.started pid cmd lfp jf) now).snd.status = some "started" ∧
    (run_inference reg w (some c) envPath reqJobId defId
        (.started pid cmd lfp jf) now).snd.jobId =
      some (reqJobId.getD defId) ∧
    Registry.find? (run_inference reg w (some c) envPath reqJobId defId
        (.started pid cmd lfp jf) now).fst (reqJobId.getD defId) =
      some { status := "running", jobId := reqJobId.getD defId,
             systemPid := pid, command := cmd, startedAt := now,
             logFilePath := lfp, jobFolder := jf } ∧
    (run_training reg w (some c) envPath reqJobId defId
        (.started pid cmd lfp jf) now).snd.status = some "started" ∧
    Registry.find? (run_training reg w (some c) envPath reqJobId defId
        (.started pid cmd lfp jf) now).fst (reqJobId.getD defId) =
      some { status := "running", jobId := reqJobId.getD defId,
             systemPid := pid, command := cmd, startedAt := now,
             jobType := some "training", logFilePath := lfp,
             jobFolder := jf } := by
  simp [run_inference, run_training, henv, Registry.find?_insert_self]

/-- C1 witness: the amended theorem applied to the collision scenario of the
counterexample. -/
theorem run_handlers_overwrite_witness :
    (run_inference regRun wReady (some "cfg.json") none (some "j") "job_1"
        (.started 22 "cmd2" none none) 5).snd.status = some "started" ∧
    Registry.find? (run_inference regRun wReady (some "cfg.json") none
        (some "j") "job_1" (.started 22 "cmd2" none none) 5).fst "j" =
      some { status := "running", jobId := "j", systemPid := 22,
             command := "cmd2", startedAt := 5 } := by
  have h := run_handlers_overwrite regRun wReady "cfg.json" none (some "j")
    "job_1" 22 "cmd2" none none 5 (by decide)
  exact ⟨h.1, h.2.2.1⟩

/-! ### Claim C2 -/

/-- C2 counterexample: cancelling the already-completed job `"k"` does not
return NotFound: it answers 200 with `cancelled`, and it mutates the stored
terminal record (the lookup no longer returns the original record). -/
theorem cancel_terminal_not_rejected_cex :
    isTerminal recDone.status = true ∧
    (cancel_inference regDone "k" 9).snd.httpStatus = 200 ∧
    (cancel_inference regDone "k" 9).snd.status = some "cancelled" ∧
    Registry.find? (cancel_inference regDone "k" 9).fst "k" ≠ some recDone := by
  decide

/-- C2 (amended): the cancel handlers return NotFound (404), leaving the
registry unchanged, only for an unknown job id.  A cancel naming any known
job — in particular one whose stored status is already terminal — is
accepted with 200/`cancelled` and mutates the stored record, overwriting its
status with `cancelled` and setting `cancelled_at`. -/
theorem cancel_semantics_amended
    (reg : Registry) (j : String) (now : Nat) (r : JobRecord)
    (h : Registry.find? reg j = some r) (hterm : isTerminal r.status = true) :
    (cancel_inference reg j now).snd.httpStatus = 200 ∧
    (cancel_inference reg j now).snd.status = some "cancelled" ∧
    Registry.find? (cancel_inference reg j now).fst j =
      some { r with status := "cancelled", cancelledAt := some now } ∧
    (cancel_training reg j now).snd.httpStatus = 200 ∧
    Registry.find? (cancel_training reg j now).fst j =
      some { r with status := "cancelled", cancelledAt := some now } ∧
    (∀ reg2 : Registry, Registry.find? reg2 j = none →
      (cancel_inference reg2 j now).snd.httpStatus = 404 ∧
      (cancel_inference reg2 j now).fst = reg2 ∧
      (cancel_training reg2 j now).snd.httpStatus = 404 ∧
      (cancel_training reg2 j now).fst = reg2) := by
  refine ⟨?_, ?_, ?_, ?_, ?_, ?_⟩
  · simp [cancel_inference, h]
  · simp [cancel_inference, h]
  · simp [cancel_inference, h, Registry.find?_insert_self]
  · simp [cancel_training, h]
  · simp [cancel_training, h, Registry.find?_insert_self]
  · intro reg2 h2
    simp [cancel_inference, cancel_training, h2]

/-- C2 witness: the amended theorem applied to the completed job `"k"`. -/
theorem cancel_semantics_witness :
    (cancel_inference regDone "k" 9).snd.httpStatus = 200 ∧
    Registry.find? (cancel_inference regDone "k" 9).fst "k" =
      some { recDone with status := "cancelled", cancelledAt := some 9 } := by
  have h := cancel_semantics_amended regDone "k" 9 recDone (by decide)
    (by decide)
  exact ⟨h.1, h.2.2.1⟩

/-! ### Claim C3 -/

/-- C3 counterexample: after job `"k"` reached `completed`, two status polls
at event-loop times 5 and 7 return different payloads — the response embeds
`last_checked`, which advances on every poll — and neither poll resends the
memoized `exit_code` (the stored record has it, the poll payload does not).
So the polls are not literally identical and do not return the memoized
result. -/
theorem terminal_poll_payload_cex :
    isTerminal recDone.status = true ∧
    recDone.exitCode = some 0 ∧
    (get_inference_status regDone "k" none .noFile none none none 5).snd ≠
      (get_inference_status
        (get_inference_status regDone "k" none .noFile none none none 5).fst
        "k" none .noFile none none none 7).snd ∧
    (get_inference_status regDone "k" none
      .noFile none none none 5).snd.result.exitCode = none := by decide

/-- C3 (amended): once a job record is terminal, a status poll never
re-probes the process — the whole handler output is independent of the
process poll, sidecar, and log oracles; the reported and stored status stay
exactly the terminal status; and a subsequent poll returns the identical
payload except for the `last_checked` timestamp.  The payload is the fixed
status-plus-message stub: memoized detail fields such as `exit_code` remain
in the registry but are not resent.  Both endpoint families comply. -/
theorem terminal_polls_frozen
    (reg : Registry) (j : String) (r : JobRecord)
    (h : Registry.find? reg j = some r) (hterm : isTerminal r.status = true)
    (poll poll2 : Option Int) (sc sc2 : SidecarOutcome)
    (log log2 : Option (List String)) (so so2 se se2 : Option String)
    (t t2 : Nat) :
    get_inference_status reg j poll sc log so se t =
      get_inference_status reg j none .noFile none none none t ∧
    (get_inference_status reg j poll sc log so se t).snd.result.status =
      r.status ∧
    (Registry.find?
        (get_inference_status reg j poll sc log so se t).fst j).map
      JobRecord.status = some r.status ∧
    (get_inference_status (get_inference_status reg j poll sc log so se t).fst
        j poll2 sc2 log2 so2 se2 t2).snd =
      { (get_inference_status reg j poll sc log so se t).snd with
        lastChecked := some t2 } ∧
    get_training_status reg j poll sc log so se t =
      get_training_status reg j none .noFile none none none t ∧
    (get_training_status reg j poll sc log so se t).snd.result.status =
      r.status ∧
    (Registry.find?
        (get_training_status reg j poll sc log so se t).fst j).map
      JobRecord.status = some r.status ∧
    (get_training_status (get_training_status reg j poll sc log so se t).fst
        j poll2 sc2 log2 so2 se2 t2).snd =
      { (get_training_status reg j poll sc log so se t).snd with
        lastChecked := some t2 } := by
  rcases isTerminal_cases hterm with h3 | h3 | h3 <;>
    refine ⟨?_, ?_, ?_, ?_, ?_, ?_, ?_, ?_⟩ <;>
      simp [get_inference_status, get_training_status, h, h3, isTerminal,
        Registry.find?_insert_self, JobRecord.update]

/-- C3 witness: the amended theorem applied to the completed job `"k"`. -/
theorem terminal_polls_frozen_witness :
    (get_inference_status regDone "k" (some 0)
      .readError none none none 5).snd.result.status = "completed" ∧
    (get_inference_status
        (get_inference_status regDone "k" (some 0) .readError none none
          none 5).fst "k" none .noFile none none none 7).snd =
      { (get_inference_status regDone "k" (some 0) .readError none none
          none 5).snd with lastChecked := some 7 } := by
  have h := terminal_polls_frozen regDone "k" recDone (by decide) (by decide)
    (some 0) none .readError .noFile none none none none none none 5 7
  exact ⟨h.2.1, h.2.2.2.1⟩

/-! ### Claim C4 -/

/-- C4: once a cancel request has recorded `cancelled` on a running job,
every later status poll reports `cancelled` for any process-poll outcome —
including an exit code of 0 observed in the interim; and, independently, the
raw status checkers themselves report `cancelled` for any exit code whenever
the stored status says `cancelled`.  Cancellation intent wins the race, for
both job families. -/
theorem cancellation_wins_exit_race
    (reg : Registry) (j : String) (r : JobRecord) (now : Nat)
    (h : Registry.find? reg j = some r) (hr : r.status = "running") :
    (Registry.find? (cancel_inference reg j now).fst j).map JobRecord.status =
      some "cancelled" ∧
    (∀ poll sc log so se t,
      (get_inference_status (cancel_inference reg j now).fst j poll sc log
          so se t).snd.result.status = "cancelled") ∧
    (∀ poll sc log so se t,
      (get_training_status (cancel_training reg j now).fst j poll sc log
          so se t).snd.result.status = "cancelled") ∧
    (∀ (rc : Int) (ji : JobRecord) sc log so se, ji.status = "cancelled" →
      (check_inference_status (some rc) ji sc log so se).status =
        "cancelled") ∧
    (∀ (rc : Int) (ji : JobRecord) sc log so se, ji.status = "cancelled" →
      (check_training_status (some rc) ji sc log so se).status =
        "cancelled") := by
  refine ⟨?_, ?_, ?_, ?_, ?_⟩
  · simp [cancel_inference, h, Registry.find?_insert_self]
  · intro poll sc log so se t
    simp [cancel_inference, h, get_inference_status,
      Registry.find?_insert_self, isTerminal]
  · intro poll sc log so se t
    simp [cancel_training, h, get_training_status,
      Registry.find?_insert_self, isTerminal]
  · intro rc ji sc log so se hji
    simp [check_inference_status, hji]
  · intro rc ji sc log so se hji
    simp [check_training_status, hji]

/-- C4 witness: the running job `"j"` is cancelled at time 3; a poll at time
4 that observes exit code 0 still reports `cancelled`. -/
theorem cancellation_wins_exit_race_witness :
    (get_inference_status (cancel_inference regRun "j" 3).fst "j" (some 0)
        .noFile none none none 4).snd.result.status = "cancelled" := by
  have h := cancellation_wins_exit_race regRun "j" recRunning 3 (by decide)
    (by decide)
  exact h.2.1 (some 0) .noFile none none none 4

end TrainingGui
